import Mathlib

/-!
Shallow embedding of `src/Mathematics.py` (the `calculate_scores` function).

Python numbers (ints and floats) are modelled as real numbers; `math.exp`
is `Real.exp`.  The final `round(x, 2)` calls of the source are a
presentation step (spec section 4.4: rounding must not feed back into any
computation) and are not modelled; claims about displayed values are stated
as bounds on the unrounded reals.

Two layers:
* a total layer over `QuestionMetrics` / `InterviewConfig` (all fields
  present), one Lean definition per local variable of the source, with
  Lean total division standing in for Python division wherever the source
  guards or the contract excludes a zero denominator;
* a checked layer over `QuestionDict` / `ConfigDict` (fields are `Option`,
  mirroring Python dict access), where `calculate_scores` reads fields in
  the source order, raises `KeyError` on a missing key and
  `ZeroDivisionError` on the unguarded divisions, exactly where the Python
  code would raise.
-/

noncomputable section

/-- One question record: the thirteen keys read from each element of
`questions_data` in `src/Mathematics.py`. -/
structure QuestionMetrics where
  T_think : ℝ
  T_total : ℝ
  T_stuck : ℝ
  E_covered : ℝ
  E_total : ℝ
  C_initial : ℝ
  C_final : ℝ
  C_target : ℝ
  S_lint : ℝ
  K_useful : ℝ
  K_total : ℝ
  S_sentiment : ℝ
  H_types : List ℝ
  Q_difficulty : ℝ

/-- The four per-category weights of `interview_config['weights']`. -/
structure Weights where
  ps : ℝ
  code : ℝ
  resilience : ℝ
  autonomy : ℝ

/-- Interview-wide configuration: the weights and the hint budget. -/
structure InterviewConfig where
  weights : Weights
  hint_budget : ℝ

/-- The unrounded values returned by `calculate_scores` (line 76-86 of the
source): the five scores and the two detail values. -/
structure ScoreReport where
  problem_solving : ℝ
  coding : ℝ
  resilience : ℝ
  autonomy : ℝ
  overall : ℝ
  base : ℝ
  difficulty : ℝ

/-- Line 18: `epsilon = 1e-6`. -/
def epsilon : ℝ := 1e-6

/-- Line 33: `think_ratio_term = math.exp(-((q['T_think'] / q['T_total']) - 0.3)**2)`. -/
def think_ratio_term (q : QuestionMetrics) : ℝ :=
  Real.exp (-((q.T_think / q.T_total) - 0.3) ^ 2)

/-- Line 34: `score_ps = 10 * (0.6 * (q['E_covered'] / q['E_total']) + 0.4 * min(1, think_ratio_term))`. -/
def score_ps (q : QuestionMetrics) : ℝ :=
  10 * (0.6 * (q.E_covered / q.E_total) + 0.4 * min 1 (think_ratio_term q))

/-- Lines 38-40: the clamped improvement factor
`max(0, min(1, (C_initial - C_final) / (C_initial - C_target + epsilon)))`. -/
def improvement_factor (q : QuestionMetrics) : ℝ :=
  max 0 (min 1 ((q.C_initial - q.C_final) / (q.C_initial - q.C_target + epsilon)))

/-- Line 42: `K_useful / K_total if K_total > 0 else 0`. -/
def keystroke_efficiency (q : QuestionMetrics) : ℝ :=
  if q.K_total > 0 then q.K_useful / q.K_total else 0

/-- Line 43: `score_code = 10 * (0.5 * improvement_factor + 0.3 * S_lint + 0.2 * keystroke_efficiency)`. -/
def score_code (q : QuestionMetrics) : ℝ :=
  10 * (0.5 * improvement_factor q + 0.3 * q.S_lint + 0.2 * keystroke_efficiency q)

/-- Line 47: `stuck_ratio = T_stuck / T_total if T_total > 0 else 1`. -/
def stuck_ratio (q : QuestionMetrics) : ℝ :=
  if q.T_total > 0 then q.T_stuck / q.T_total else 1

/-- Line 48: `score_resilience = 10 * ((1 - stuck_ratio) * S_sentiment)`. -/
def score_resilience (q : QuestionMetrics) : ℝ :=
  10 * ((1 - stuck_ratio q) * q.S_sentiment)

/-- Line 52 accumulated over the loop: `total_hints_score = sum over questions of sum(H_types)`. -/
def total_hints_score (qs : List QuestionMetrics) : ℝ :=
  (qs.map (fun q => q.H_types.sum)).sum

/-- Line 53 accumulated over the loop: `total_difficulty = sum over questions of Q_difficulty`. -/
def total_difficulty (qs : List QuestionMetrics) : ℝ :=
  (qs.map QuestionMetrics.Q_difficulty).sum

/-- Line 56: `avg_score_ps = sum(ps_scores) / num_questions if num_questions > 0 else 0`. -/
def avg_score_ps (qs : List QuestionMetrics) : ℝ :=
  if qs.length > 0 then ((qs.map score_ps).sum) / (qs.length : ℝ) else 0

/-- Line 57: average of the per-question coding scores, `0` when there are no questions. -/
def avg_score_code (qs : List QuestionMetrics) : ℝ :=
  if qs.length > 0 then ((qs.map score_code).sum) / (qs.length : ℝ) else 0

/-- Line 58: average of the per-question resilience scores, `0` when there are no questions. -/
def avg_score_resilience (qs : List QuestionMetrics) : ℝ :=
  if qs.length > 0 then ((qs.map score_resilience).sum) / (qs.length : ℝ) else 0

/-- Line 61: `autonomy_denominator = total_difficulty * interview_config.get('hint_budget', 1.0)`. -/
def autonomy_denominator (qs : List QuestionMetrics) (cfg : InterviewConfig) : ℝ :=
  total_difficulty qs * cfg.hint_budget

/-- Line 62: `autonomy_term = 1 - (total_hints_score / autonomy_denominator) if autonomy_denominator > 0 else 1`. -/
def autonomy_term (qs : List QuestionMetrics) (cfg : InterviewConfig) : ℝ :=
  if autonomy_denominator qs cfg > 0 then
    1 - (total_hints_score qs / autonomy_denominator qs cfg)
  else 1

/-- Line 63: `score_autonomy = 10 * max(0, autonomy_term)`. -/
def score_autonomy (qs : List QuestionMetrics) (cfg : InterviewConfig) : ℝ :=
  10 * max 0 (autonomy_term qs cfg)

/-- Line 69: `base_score_denominator = sum(w.values())` for the four category weights. -/
def weight_sum (w : Weights) : ℝ :=
  w.ps + w.code + w.resilience + w.autonomy

/-- Lines 67-70: the weighted base score
`(w_ps*avg_ps + w_code*avg_code + w_resilience*avg_resilience + w_autonomy*score_autonomy) / sum(w.values())`. -/
def base_score (qs : List QuestionMetrics) (cfg : InterviewConfig) : ℝ :=
  (cfg.weights.ps * avg_score_ps qs + cfg.weights.code * avg_score_code qs +
    cfg.weights.resilience * avg_score_resilience qs +
    cfg.weights.autonomy * score_autonomy qs cfg) / weight_sum cfg.weights

/-- Line 72: `difficulty_factor = total_difficulty / (3 * num_questions) if num_questions > 0 else 1`. -/
def difficulty_factor (qs : List QuestionMetrics) : ℝ :=
  if qs.length > 0 then total_difficulty qs / (3 * (qs.length : ℝ)) else 1

/-- Line 73: `score_overall = base_score * (0.8 + 0.4 * difficulty_factor)`. -/
def score_overall (qs : List QuestionMetrics) (cfg : InterviewConfig) : ℝ :=
  base_score qs cfg * (0.8 + 0.4 * difficulty_factor qs)

/-- Lines 76-86: the returned report, with the rounding (a presentation
step per the spec) omitted. -/
def score_report (qs : List QuestionMetrics) (cfg : InterviewConfig) : ScoreReport where
  problem_solving := avg_score_ps qs
  coding := avg_score_code qs
  resilience := avg_score_resilience qs
  autonomy := score_autonomy qs cfg
  overall := score_overall qs cfg
  base := base_score qs cfg
  difficulty := difficulty_factor qs

/-! ### The checked layer: Python dict access and raising semantics -/

/-- The dict keys `calculate_scores` reads. -/
inductive FieldName
  | tThink | tTotal | tStuck | eCovered | eTotal
  | cInitial | cFinal | cTarget
  | sLint | kUseful | kTotal | sSentiment | hTypes | qDifficulty
  | weights | wps | wcode | wresilience | wautonomy | hintBudget

/-- The two runtime failures Python can raise inside `calculate_scores`:
a missing dict key, or a division whose denominator is zero. -/
inductive PyError
  | keyError (f : FieldName)
  | zeroDivisionError

/-- A question record as the Python dict: each key possibly absent. -/
structure QuestionDict where
  T_think : Option ℝ := none
  T_total : Option ℝ := none
  T_stuck : Option ℝ := none
  E_covered : Option ℝ := none
  E_total : Option ℝ := none
  C_initial : Option ℝ := none
  C_final : Option ℝ := none
  C_target : Option ℝ := none
  S_lint : Option ℝ := none
  K_useful : Option ℝ := none
  K_total : Option ℝ := none
  S_sentiment : Option ℝ := none
  H_types : Option (List ℝ) := none
  Q_difficulty : Option ℝ := none

/-- The weights dict: each of the four category keys possibly absent. -/
structure WeightsDict where
  ps : Option ℝ := none
  code : Option ℝ := none
  resilience : Option ℝ := none
  autonomy : Option ℝ := none

/-- The interview-config dict: the weights mapping and the hint budget,
each possibly absent. -/
structure ConfigDict where
  weights : Option WeightsDict := none
  hint_budget : Option ℝ := none

/-- Python `d[key]`: the value when present, a `KeyError` when absent
(`d.get(key, default)` is `Option.getD` and never raises). -/
def keyGet {α : Type} (o : Option α) (f : FieldName) : Except PyError α :=
  match o with
  | some v => Except.ok v
  | none => Except.error (PyError.keyError f)

/-- One iteration of the loop of lines 31-53, as the sequence of dict reads
and potentially raising divisions the Python code performs, in source
order; on success it yields the fully-read record.  A key inside an
unreached conditional branch (`K_useful` when `K_total <= 0`, `T_stuck`
when `T_total <= 0`) is not read; the placeholder `0` stored for it feeds
only the branch of `keystroke_efficiency` / `stuck_ratio` that ignores it. -/
def getQuestion (q : QuestionDict) : Except PyError QuestionMetrics := do
  let tThink ← keyGet q.T_think FieldName.tThink
  let tTotal ← keyGet q.T_total FieldName.tTotal
  if tTotal = 0 then throw PyError.zeroDivisionError
  let eCovered ← keyGet q.E_covered FieldName.eCovered
  let eTotal ← keyGet q.E_total FieldName.eTotal
  if eTotal = 0 then throw PyError.zeroDivisionError
  let cInitial ← keyGet q.C_initial FieldName.cInitial
  let cFinal ← keyGet q.C_final FieldName.cFinal
  let cTarget ← keyGet q.C_target FieldName.cTarget
  if cInitial - cTarget + epsilon = 0 then throw PyError.zeroDivisionError
  let kTotal ← keyGet q.K_total FieldName.kTotal
  let kUseful ← if kTotal > 0 then keyGet q.K_useful FieldName.kUseful else pure 0
  let sLint ← keyGet q.S_lint FieldName.sLint
  let tStuck ← if tTotal > 0 then keyGet q.T_stuck FieldName.tStuck else pure 0
  let sSentiment ← keyGet q.S_sentiment FieldName.sSentiment
  let hTypes := q.H_types.getD []
  let qDifficulty ← keyGet q.Q_difficulty FieldName.qDifficulty
  pure
    { T_think := tThink, T_total := tTotal, T_stuck := tStuck
      E_covered := eCovered, E_total := eTotal
      C_initial := cInitial, C_final := cFinal, C_target := cTarget
      S_lint := sLint, K_useful := kUseful, K_total := kTotal
      S_sentiment := sSentiment, H_types := hTypes, Q_difficulty := qDifficulty }

/-- The loop of lines 31-53 over the whole list, left to right. -/
def getQuestions : List QuestionDict → Except PyError (List QuestionMetrics)
  | [] => pure []
  | q :: rest => do
    let qm ← getQuestion q
    let restm ← getQuestions rest
    pure (qm :: restm)

/-- `calculate_scores(questions_data, interview_config)` with Python's
raising semantics: the per-question loop (which may raise), then
`interview_config.get('hint_budget', 1.0)` (line 61, never raises), the
`interview_config['weights']` lookup and its four entry lookups
(lines 66-68, `KeyError` when absent), the division by `sum(w.values())`
(line 70, `ZeroDivisionError` when the weight sum is zero), and on success
the report built by the total layer. -/
def calculate_scores (questions_data : List QuestionDict) (interview_config : ConfigDict) :
    Except PyError ScoreReport := do
  let qs ← getQuestions questions_data
  let hintBudget := interview_config.hint_budget.getD 1
  let w ← keyGet interview_config.weights FieldName.weights
  let wps ← keyGet w.ps FieldName.wps
  let wcode ← keyGet w.code FieldName.wcode
  let wresilience ← keyGet w.resilience FieldName.wresilience
  let wautonomy ← keyGet w.autonomy FieldName.wautonomy
  if wps + wcode + wresilience + wautonomy = 0 then throw PyError.zeroDivisionError
  pure (score_report qs
    { weights := { ps := wps, code := wcode, resilience := wresilience, autonomy := wautonomy }
      hint_budget := hintBudget })

/-- All fields present: a `QuestionMetrics` as the dict holding it. -/
def QuestionMetrics.toDict (q : QuestionMetrics) : QuestionDict where
  T_think := some q.T_think
  T_total := some q.T_total
  T_stuck := some q.T_stuck
  E_covered := some q.E_covered
  E_total := some q.E_total
  C_initial := some q.C_initial
  C_final := some q.C_final
  C_target := some q.C_target
  S_lint := some q.S_lint
  K_useful := some q.K_useful
  K_total := some q.K_total
  S_sentiment := some q.S_sentiment
  H_types := some q.H_types
  Q_difficulty := some q.Q_difficulty

/-- All entries present: an `InterviewConfig` as the dict holding it. -/
def InterviewConfig.toDict (cfg : InterviewConfig) : ConfigDict where
  weights := some
    { ps := some cfg.weights.ps, code := some cfg.weights.code
      resilience := some cfg.weights.resilience, autonomy := some cfg.weights.autonomy }
  hint_budget := some cfg.hint_budget

/-! ### The input contract (spec section 3) -/

/-- The section-3 contract on one question record: non-negative durations
with the think and stuck times within the total, a positive total time,
positive coverage within the expected total, non-negative keystroke counts
with the useful count within the total, lint and sentiment signals in
`[0,1]`, non-negative hint weights and a positive difficulty. -/
structure ValidQuestion (q : QuestionMetrics) : Prop where
  think_nonneg : 0 ≤ q.T_think
  stuck_nonneg : 0 ≤ q.T_stuck
  think_le : q.T_think ≤ q.T_total
  stuck_le : q.T_stuck ≤ q.T_total
  total_pos : 0 < q.T_total
  covered_pos : 0 < q.E_covered
  covered_le : q.E_covered ≤ q.E_total
  useful_nonneg : 0 ≤ q.K_useful
  useful_le : q.K_useful ≤ q.K_total
  lint_nonneg : 0 ≤ q.S_lint
  lint_le : q.S_lint ≤ 1
  sentiment_nonneg : 0 ≤ q.S_sentiment
  sentiment_le : q.S_sentiment ≤ 1
  hints_nonneg : ∀ h ∈ q.H_types, 0 ≤ h
  difficulty_pos : 0 < q.Q_difficulty

/-- The section-3 contract on the configuration: non-negative weights with
a positive sum, and a positive hint budget. -/
structure ValidConfig (cfg : InterviewConfig) : Prop where
  ps_nonneg : 0 ≤ cfg.weights.ps
  code_nonneg : 0 ≤ cfg.weights.code
  resilience_nonneg : 0 ≤ cfg.weights.resilience
  autonomy_nonneg : 0 ≤ cfg.weights.autonomy
  sum_pos : 0 < weight_sum cfg.weights
  budget_pos : 0 < cfg.hint_budget

/-! ### Concrete records from the example block of the source -/

/-- Question 1 of the example block (lines 94-103), also the single-question
scenario of spec section 8. -/
def exampleQ1 : QuestionMetrics where
  T_think := 120
  T_total := 600
  T_stuck := 45
  E_covered := 3
  E_total := 4
  C_initial := 2.0
  C_final := 1.0
  C_target := 1.0
  S_lint := 0.85
  K_useful := 400
  K_total := 550
  S_sentiment := 0.8
  H_types := [1]
  Q_difficulty := 2

/-- The example configuration (lines 117-125): weights
`ps 0.4, code 0.3, resilience 0.1, autonomy 0.2` and hint budget `1.0`. -/
def exampleConfig : InterviewConfig where
  weights := { ps := 0.4, code := 0.3, resilience := 0.1, autonomy := 0.2 }
  hint_budget := 1.0

/-- Question 1 with its sentiment signal zeroed out. -/
def zeroSentQ : QuestionMetrics :=
  { exampleQ1 with S_sentiment := 0 }

/-- Question 1 with a heavier hint trace (hint weight 2 instead of 1),
same difficulty. -/
def moreHintsQ : QuestionMetrics :=
  { exampleQ1 with H_types := [2] }

/-- The configuration with every weight scaled by the same constant. -/
def scale_weights (c : ℝ) (cfg : InterviewConfig) : InterviewConfig :=
  { cfg with
    weights :=
      { ps := c * cfg.weights.ps, code := c * cfg.weights.code
        resilience := c * cfg.weights.resilience, autonomy := c * cfg.weights.autonomy } }

lemma epsilon_pos : 0 < epsilon := by norm_num [epsilon]

/-! ### Claims -/

/-- C9: whenever a question's sentiment signal is zero (with non-negative
total time and stuck time within it), its per-question resilience score is
exactly zero, whatever the stuck ratio is. -/
theorem C9_resilience_zero_of_zero_sentiment (q : QuestionMetrics)
    (_h0 : 0 ≤ q.T_total) (_h1 : q.T_stuck ≤ q.T_total)
    (hs : q.S_sentiment = 0) : score_resilience q = 0 := by
  simp [score_resilience, hs]

/-- Witness for C9 at the example question with sentiment zeroed. -/
theorem C9_witness :
    0 ≤ zeroSentQ.T_total ∧ zeroSentQ.T_stuck ≤ zeroSentQ.T_total ∧
    zeroSentQ.S_sentiment = 0 ∧ score_resilience zeroSentQ = 0 :=
  ⟨by norm_num [zeroSentQ, exampleQ1], by norm_num [zeroSentQ, exampleQ1], rfl,
    C9_resilience_zero_of_zero_sentiment zeroSentQ
      (by norm_num [zeroSentQ, exampleQ1]) (by norm_num [zeroSentQ, exampleQ1]) rfl⟩

/-- C5 counterexample: at question 1 of the source's own example block
(`C_initial = 2, C_final = 1 = C_target`) the clamped improvement factor is
strictly below one, not exactly one as the claim states: the epsilon in the
denominator makes it `1 / 1.000001`. -/
theorem C5_counterexample :
    exampleQ1.C_final = exampleQ1.C_target ∧ exampleQ1.C_initial ≠ exampleQ1.C_target ∧
    improvement_factor exampleQ1 < 1 := by
  refine ⟨rfl, by norm_num [exampleQ1], ?_⟩
  unfold improvement_factor
  have hx : (exampleQ1.C_initial - exampleQ1.C_final) /
      (exampleQ1.C_initial - exampleQ1.C_target + epsilon) < 1 := by
    rw [div_lt_one (by norm_num [exampleQ1, epsilon])]
    norm_num [exampleQ1, epsilon]
  exact max_lt (by norm_num) (lt_of_le_of_lt (min_le_right _ _) hx)

/-- C5 (amended): the clamped improvement factor is exactly zero when the
final complexity equals the initial one; when the final complexity reaches
the target it is exactly one only in the decreasing-toward-a-higher-target
direction (`C_initial < C_target - epsilon`, where the pre-clamp ratio
exceeds one); in the usual direction `C_initial > C_target` it equals
`(C_initial - C_target) / (C_initial - C_target + epsilon)`, strictly below
one. -/
theorem C5_improvement_factor_endpoints :
    (∀ q : QuestionMetrics, q.C_final = q.C_initial → improvement_factor q = 0) ∧
    (∀ q : QuestionMetrics, q.C_final = q.C_target →
      q.C_initial < q.C_target - epsilon → improvement_factor q = 1) ∧
    (∀ q : QuestionMetrics, q.C_final = q.C_target → q.C_target < q.C_initial →
      improvement_factor q =
        (q.C_initial - q.C_target) / (q.C_initial - q.C_target + epsilon) ∧
      improvement_factor q < 1) := by
  refine ⟨fun q h => by simp [improvement_factor, h], fun q h1 h2 => ?_, fun q h1 h2 => ?_⟩
  · unfold improvement_factor
    rw [h1]
    have hden : q.C_initial - q.C_target + epsilon < 0 := by linarith [epsilon_pos]
    have hnum : q.C_initial - q.C_target < 0 := by linarith [epsilon_pos]
    have h1le : 1 ≤ (q.C_initial - q.C_target) / (q.C_initial - q.C_target + epsilon) := by
      rw [le_div_iff_of_neg hden]
      linarith [epsilon_pos]
    rw [min_eq_left h1le]
    norm_num
  · unfold improvement_factor
    rw [h1]
    have ha : 0 < q.C_initial - q.C_target := sub_pos.mpr h2
    have hden : 0 < q.C_initial - q.C_target + epsilon := by linarith [epsilon_pos]
    have hlt : (q.C_initial - q.C_target) / (q.C_initial - q.C_target + epsilon) < 1 := by
      rw [div_lt_one hden]
      linarith [epsilon_pos]
    rw [min_eq_right hlt.le, max_eq_right (div_nonneg ha.le hden.le)]
    exact ⟨rfl, hlt⟩

/-- C7: with the accumulated difficulty and the hint budget fixed and the
autonomy denominator positive, the autonomy score is non-increasing in the
accumulated hint weight, and it is never negative. -/
theorem C7_autonomy_monotone (qs qs' : List QuestionMetrics) (cfg : InterviewConfig)
    (hd : total_difficulty qs' = total_difficulty qs)
    (hpos : 0 < autonomy_denominator qs cfg)
    (hmono : total_hints_score qs ≤ total_hints_score qs') :
    score_autonomy qs' cfg ≤ score_autonomy qs cfg ∧ 0 ≤ score_autonomy qs' cfg := by
  have hden : autonomy_denominator qs' cfg = autonomy_denominator qs cfg := by
    rw [autonomy_denominator, autonomy_denominator, hd]
  constructor
  · rw [score_autonomy, score_autonomy, autonomy_term, autonomy_term, hden,
      if_pos hpos, if_pos hpos]
    have hdiv : total_hints_score qs / autonomy_denominator qs cfg ≤
        total_hints_score qs' / autonomy_denominator qs cfg :=
      (div_le_div_iff_of_pos_right hpos).mpr hmono
    have := max_le_max (le_refl (0 : ℝ)) (sub_le_sub_left hdiv 1)
    linarith
  · exact mul_nonneg (by norm_num) (le_max_left 0 _)

/-- Witness for C7: one hint of weight 1 versus one of weight 2 on the
example question, under the example configuration. -/
theorem C7_witness :
    score_autonomy [moreHintsQ] exampleConfig ≤ score_autonomy [exampleQ1] exampleConfig ∧
    0 ≤ score_autonomy [moreHintsQ] exampleConfig :=
  C7_autonomy_monotone [exampleQ1] [moreHintsQ] exampleConfig
    (by norm_num [total_difficulty, moreHintsQ, exampleQ1])
    (by norm_num [autonomy_denominator, total_difficulty, exampleQ1, exampleConfig])
    (by norm_num [total_hints_score, moreHintsQ, exampleQ1])

/-- C8: on the empty question list with a positive weight sum, the three
averages are zero, the difficulty factor is one, and the checked
`calculate_scores` succeeds (no failure), returning the report of the total
layer. -/
theorem C8_empty_questions (cfg : InterviewConfig) (h : 0 < weight_sum cfg.weights) :
    avg_score_ps [] = 0 ∧ avg_score_code [] = 0 ∧ avg_score_resilience [] = 0 ∧
    difficulty_factor [] = 1 ∧
    calculate_scores [] cfg.toDict = Except.ok (score_report [] cfg) := by
  have hne : cfg.weights.ps + cfg.weights.code + cfg.weights.resilience +
      cfg.weights.autonomy ≠ 0 := by
    rw [weight_sum] at h
    exact ne_of_gt h
  refine ⟨rfl, rfl, rfl, rfl, ?_⟩
  simp [calculate_scores, getQuestions, keyGet, InterviewConfig.toDict, hne,
    Bind.bind, Except.bind, pure, Except.pure]

/-- Witness for C8 at the example configuration. -/
theorem C8_witness :
    avg_score_ps [] = 0 ∧ avg_score_code [] = 0 ∧ avg_score_resilience [] = 0 ∧
    difficulty_factor [] = 1 ∧
    calculate_scores [] exampleConfig.toDict = Except.ok (score_report [] exampleConfig) :=
  C8_empty_questions exampleConfig (by norm_num [weight_sum, exampleConfig])

/-- C10: scaling all four configured weights by one positive constant
leaves every field of the report unchanged. -/
theorem C10_weight_scale_invariance (qs : List QuestionMetrics) (cfg : InterviewConfig)
    (c : ℝ) (hc : 0 < c) :
    score_report qs (scale_weights c cfg) = score_report qs cfg := by
  have hsa : score_autonomy qs (scale_weights c cfg) = score_autonomy qs cfg := rfl
  have hb : base_score qs (scale_weights c cfg) = base_score qs cfg := by
    rw [base_score, base_score, hsa, weight_sum, weight_sum]
    simp only [scale_weights]
    have hnum : c * cfg.weights.ps * avg_score_ps qs + c * cfg.weights.code * avg_score_code qs +
        c * cfg.weights.resilience * avg_score_resilience qs +
        c * cfg.weights.autonomy * score_autonomy qs cfg =
        c * (cfg.weights.ps * avg_score_ps qs + cfg.weights.code * avg_score_code qs +
          cfg.weights.resilience * avg_score_resilience qs +
          cfg.weights.autonomy * score_autonomy qs cfg) := by ring
    have hden : c * cfg.weights.ps + c * cfg.weights.code + c * cfg.weights.resilience +
        c * cfg.weights.autonomy =
        c * (cfg.weights.ps + cfg.weights.code + cfg.weights.resilience +
          cfg.weights.autonomy) := by ring
    rw [hnum, hden, mul_div_mul_left _ _ (ne_of_gt hc)]
  have ho : score_overall qs (scale_weights c cfg) = score_overall qs cfg := by
    rw [score_overall, score_overall, hb]
  simp only [score_report]
  rw [hb, ho, hsa]

/-- Witness for C10: doubling the example weights at the example question. -/
theorem C10_witness :
    score_report [exampleQ1] (scale_weights 2 exampleConfig) =
      score_report [exampleQ1] exampleConfig :=
  C10_weight_scale_invariance [exampleQ1] exampleConfig 2 (by norm_num)

/-! ### Range lemmas for C1 -/

lemma score_ps_bounds (q : QuestionMetrics) (hq : ValidQuestion q) :
    0 ≤ score_ps q ∧ score_ps q ≤ 10 := by
  have hE : 0 < q.E_total := lt_of_lt_of_le hq.covered_pos hq.covered_le
  have hr0 : 0 ≤ q.E_covered / q.E_total := div_nonneg hq.covered_pos.le hE.le
  have hr1 : q.E_covered / q.E_total ≤ 1 := (div_le_one hE).mpr hq.covered_le
  have hm0 : 0 ≤ min 1 (think_ratio_term q) :=
    le_min zero_le_one (Real.exp_pos _).le
  have hm1 : min 1 (think_ratio_term q) ≤ 1 := min_le_left _ _
  rw [score_ps]
  constructor <;> linarith

lemma score_code_bounds (q : QuestionMetrics) (hq : ValidQuestion q) :
    0 ≤ score_code q ∧ score_code q ≤ 10 := by
  have hi0 : 0 ≤ improvement_factor q := le_max_left _ _
  have hi1 : improvement_factor q ≤ 1 := max_le zero_le_one (min_le_left _ _)
  have hk : 0 ≤ keystroke_efficiency q ∧ keystroke_efficiency q ≤ 1 := by
    rw [keystroke_efficiency]
    split_ifs with hK
    · exact ⟨div_nonneg hq.useful_nonneg hK.le, (div_le_one hK).mpr hq.useful_le⟩
    · exact ⟨le_refl 0, zero_le_one⟩
  have hl0 := hq.lint_nonneg
  have hl1 := hq.lint_le
  rw [score_code]
  constructor <;> linarith [hk.1, hk.2]

lemma score_resilience_bounds (q : QuestionMetrics) (hq : ValidQuestion q) :
    0 ≤ score_resilience q ∧ score_resilience q ≤ 10 := by
  rw [score_resilience, stuck_ratio, if_pos hq.total_pos]
  have hs0 : 0 ≤ q.T_stuck / q.T_total := div_nonneg hq.stuck_nonneg hq.total_pos.le
  have hs1 : q.T_stuck / q.T_total ≤ 1 := (div_le_one hq.total_pos).mpr hq.stuck_le
  have hp0 : 0 ≤ (1 - q.T_stuck / q.T_total) * q.S_sentiment :=
    mul_nonneg (by linarith) hq.sentiment_nonneg
  have hp1 : (1 - q.T_stuck / q.T_total) * q.S_sentiment ≤ 1 :=
    mul_le_one₀ (by linarith) hq.sentiment_nonneg hq.sentiment_le
  constructor <;> linarith

lemma sum_bounds (l : List ℝ) (h : ∀ x ∈ l, 0 ≤ x ∧ x ≤ 10) :
    0 ≤ l.sum ∧ l.sum ≤ 10 * (l.length : ℝ) := by
  induction l with
  | nil => simp
  | cons x xs ih =>
    have hx := h x (by simp)
    have hxs := ih fun y hy => h y (by simp [hy])
    rw [List.sum_cons, List.length_cons]
    push_cast
    constructor <;> linarith [hx.1, hx.2, hxs.1, hxs.2]

lemma avg_bounds (l : List ℝ) (h : ∀ x ∈ l, 0 ≤ x ∧ x ≤ 10) :
    0 ≤ (if l.length > 0 then l.sum / (l.length : ℝ) else 0) ∧
    (if l.length > 0 then l.sum / (l.length : ℝ) else 0) ≤ 10 := by
  split_ifs with hl
  · have hlen : (0 : ℝ) < (l.length : ℝ) := by exact_mod_cast hl
    obtain ⟨hs0, hs1⟩ := sum_bounds l h
    refine ⟨div_nonneg hs0 hlen.le, ?_⟩
    rw [div_le_iff₀ hlen]
    linarith
  · norm_num

lemma avg_score_ps_bounds (qs : List QuestionMetrics) (hq : ∀ q ∈ qs, ValidQuestion q) :
    0 ≤ avg_score_ps qs ∧ avg_score_ps qs ≤ 10 := by
  have := avg_bounds (qs.map score_ps) (by
    intro x hx
    obtain ⟨q, hqm, rfl⟩ := List.mem_map.mp hx
    exact score_ps_bounds q (hq q hqm))
  rw [avg_score_ps]
  simpa [List.length_map] using this

lemma avg_score_code_bounds (qs : List QuestionMetrics) (hq : ∀ q ∈ qs, ValidQuestion q) :
    0 ≤ avg_score_code qs ∧ avg_score_code qs ≤ 10 := by
  have := avg_bounds (qs.map score_code) (by
    intro x hx
    obtain ⟨q, hqm, rfl⟩ := List.mem_map.mp hx
    exact score_code_bounds q (hq q hqm))
  rw [avg_score_code]
  simpa [List.length_map] using this

lemma avg_score_resilience_bounds (qs : List QuestionMetrics)
    (hq : ∀ q ∈ qs, ValidQuestion q) :
    0 ≤ avg_score_resilience qs ∧ avg_score_resilience qs ≤ 10 := by
  have := avg_bounds (qs.map score_resilience) (by
    intro x hx
    obtain ⟨q, hqm, rfl⟩ := List.mem_map.mp hx
    exact score_resilience_bounds q (hq q hqm))
  rw [avg_score_resilience]
  simpa [List.length_map] using this

lemma total_hints_nonneg (qs : List QuestionMetrics) (hq : ∀ q ∈ qs, ValidQuestion q) :
    0 ≤ total_hints_score qs := by
  rw [total_hints_score]
  apply List.sum_nonneg
  intro x hx
  obtain ⟨q, hqm, rfl⟩ := List.mem_map.mp hx
  exact List.sum_nonneg fun y hy => (hq q hqm).hints_nonneg y hy

lemma score_autonomy_bounds (qs : List QuestionMetrics) (cfg : InterviewConfig)
    (hh : 0 ≤ total_hints_score qs) :
    0 ≤ score_autonomy qs cfg ∧ score_autonomy qs cfg ≤ 10 := by
  rw [score_autonomy, autonomy_term]
  split_ifs with had
  · have hdiv : 0 ≤ total_hints_score qs / autonomy_denominator qs cfg :=
      div_nonneg hh had.le
    have hle : max 0 (1 - total_hints_score qs / autonomy_denominator qs cfg) ≤ 1 :=
      max_le zero_le_one (by linarith)
    exact ⟨mul_nonneg (by norm_num) (le_max_left _ _), by linarith⟩
  · norm_num

/-- C1: under the section-3 contract, each of the three averaged competency
scores, the autonomy score and the base score lies in the interval
`[0, 10]`. -/
theorem C1_output_ranges (qs : List QuestionMetrics) (cfg : InterviewConfig)
    (hq : ∀ q ∈ qs, ValidQuestion q) (hc : ValidConfig cfg) :
    (0 ≤ avg_score_ps qs ∧ avg_score_ps qs ≤ 10) ∧
    (0 ≤ avg_score_code qs ∧ avg_score_code qs ≤ 10) ∧
    (0 ≤ avg_score_resilience qs ∧ avg_score_resilience qs ≤ 10) ∧
    (0 ≤ score_autonomy qs cfg ∧ score_autonomy qs cfg ≤ 10) ∧
    (0 ≤ base_score qs cfg ∧ base_score qs cfg ≤ 10) := by
  have hps := avg_score_ps_bounds qs hq
  have hcode := avg_score_code_bounds qs hq
  have hres := avg_score_resilience_bounds qs hq
  have hauto := score_autonomy_bounds qs cfg (total_hints_nonneg qs hq)
  refine ⟨hps, hcode, hres, hauto, ?_, ?_⟩
  · rw [base_score]
    refine div_nonneg ?_ hc.sum_pos.le
    have := mul_nonneg hc.ps_nonneg hps.1
    have := mul_nonneg hc.code_nonneg hcode.1
    have := mul_nonneg hc.resilience_nonneg hres.1
    have := mul_nonneg hc.autonomy_nonneg hauto.1
    linarith
  · rw [base_score, div_le_iff₀ hc.sum_pos, weight_sum]
    have h1 := mul_le_mul_of_nonneg_left hps.2 hc.ps_nonneg
    have h2 := mul_le_mul_of_nonneg_left hcode.2 hc.code_nonneg
    have h3 := mul_le_mul_of_nonneg_left hres.2 hc.resilience_nonneg
    have h4 := mul_le_mul_of_nonneg_left hauto.2 hc.autonomy_nonneg
    have hw := hc.sum_pos
    rw [weight_sum] at hw
    linarith

lemma exampleQ1_valid : ValidQuestion exampleQ1 := by
  constructor <;> norm_num [exampleQ1]

lemma exampleConfig_valid : ValidConfig exampleConfig := by
  constructor <;> norm_num [exampleConfig, weight_sum]

/-- Witness for C1 at the example question and configuration. -/
theorem C1_witness :
    (0 ≤ avg_score_ps [exampleQ1] ∧ avg_score_ps [exampleQ1] ≤ 10) ∧
    (0 ≤ avg_score_code [exampleQ1] ∧ avg_score_code [exampleQ1] ≤ 10) ∧
    (0 ≤ avg_score_resilience [exampleQ1] ∧ avg_score_resilience [exampleQ1] ≤ 10) ∧
    (0 ≤ score_autonomy [exampleQ1] exampleConfig ∧
      score_autonomy [exampleQ1] exampleConfig ≤ 10) ∧
    (0 ≤ base_score [exampleQ1] exampleConfig ∧
      base_score [exampleQ1] exampleConfig ≤ 10) :=
  C1_output_ranges [exampleQ1] exampleConfig
    (by
      intro q hqm
      rw [List.mem_singleton] at hqm
      rw [hqm]
      exact exampleQ1_valid)
    exampleConfig_valid

/-! ### C2: the unclamped overall score -/

/-- A contract-valid question on which the candidate scores perfectly and
whose difficulty 6 is twice the baseline 3. -/
def highQ : QuestionMetrics where
  T_think := 3
  T_total := 10
  T_stuck := 0
  E_covered := 1
  E_total := 1
  C_initial := 2
  C_final := 0
  C_target := 1
  S_lint := 1
  K_useful := 10
  K_total := 10
  S_sentiment := 1
  H_types := []
  Q_difficulty := 6

lemma highQ_valid : ValidQuestion highQ := by
  constructor <;> norm_num [highQ]

lemma think_ratio_term_highQ : think_ratio_term highQ = 1 := by
  rw [think_ratio_term]
  have harg : -((highQ.T_think / highQ.T_total) - 0.3) ^ 2 = 0 := by
    norm_num [highQ]
  rw [harg, Real.exp_zero]

/-- C2: for a non-empty question list the overall score is the base score
times `0.8 + 0.4 * (total_difficulty / (3 N))` with no clamp, and on a
contract-valid input of difficulty 6 (difficulty factor 2) the overall
score reaches 16, exceeding 10. -/
theorem C2_overall_score_unclamped :
    (∀ (qs : List QuestionMetrics) (cfg : InterviewConfig), qs ≠ [] →
      score_overall qs cfg =
        base_score qs cfg * (0.8 + 0.4 * (total_difficulty qs / (3 * (qs.length : ℝ))))) ∧
    ValidQuestion highQ ∧ ValidConfig exampleConfig ∧
    1 < difficulty_factor [highQ] ∧ 10 < score_overall [highQ] exampleConfig := by
  have hps : score_ps highQ = 10 := by
    rw [score_ps, think_ratio_term_highQ]
    norm_num [highQ]
  have himp : improvement_factor highQ = 1 := by
    rw [improvement_factor]
    have h2 : (1 : ℝ) ≤ (highQ.C_initial - highQ.C_final) /
        (highQ.C_initial - highQ.C_target + epsilon) := by
      rw [le_div_iff₀ (by norm_num [highQ, epsilon])]
      norm_num [highQ, epsilon]
    rw [min_eq_left h2]
    norm_num
  have hcode : score_code highQ = 10 := by
    rw [score_code, himp, keystroke_efficiency]
    norm_num [highQ]
  have hres : score_resilience highQ = 10 := by
    rw [score_resilience, stuck_ratio]
    norm_num [highQ]
  have hauto : score_autonomy [highQ] exampleConfig = 10 := by
    rw [score_autonomy, autonomy_term, autonomy_denominator]
    norm_num [total_difficulty, total_hints_score, highQ, exampleConfig]
  have hdf : difficulty_factor [highQ] = 2 := by
    norm_num [difficulty_factor, total_difficulty, highQ]
  have hbase : base_score [highQ] exampleConfig = 10 := by
    rw [base_score, avg_score_ps, avg_score_code, avg_score_resilience]
    simp only [List.map_cons, List.map_nil, List.sum_cons, List.sum_nil, List.length_cons,
      List.length_nil, hps, hcode, hres, hauto]
    norm_num [weight_sum, exampleConfig]
  have hover : score_overall [highQ] exampleConfig = 16 := by
    rw [score_overall, hbase, hdf]
    norm_num
  refine ⟨?_, highQ_valid, exampleConfig_valid, by rw [hdf]; norm_num, by rw [hover]; norm_num⟩
  intro qs cfg hne
  rw [score_overall, difficulty_factor, if_pos (List.length_pos.mpr hne)]

/-! ### C3: zero total time -/

/-- A question record with zero recorded total time, otherwise within the
section-3 contract. -/
def zeroTimeQ : QuestionMetrics where
  T_think := 0
  T_total := 0
  T_stuck := 0
  E_covered := 1
  E_total := 1
  C_initial := 2
  C_final := 1
  C_target := 1
  S_lint := 0.5
  K_useful := 10
  K_total := 10
  S_sentiment := 0.5
  H_types := []
  Q_difficulty := 3

/-- An error while reading some question aborts the whole computation with
that error. -/
lemma calculate_scores_error_of_getQuestion (q : QuestionDict) (rest : List QuestionDict)
    (cfgd : ConfigDict) (e : PyError) (h : getQuestion q = Except.error e) :
    calculate_scores (q :: rest) cfgd = Except.error e := by
  simp [calculate_scores, getQuestions, h, Bind.bind, Except.bind]

/-- C3 counterexample: on a record with `T_total = 0` (and every other
field within contract) `calculate_scores` does not complete; it raises a
division-by-zero at the think-ratio computation. -/
theorem C3_counterexample :
    calculate_scores [zeroTimeQ.toDict] exampleConfig.toDict =
      Except.error PyError.zeroDivisionError := by
  apply calculate_scores_error_of_getQuestion
  simp [getQuestion, keyGet, QuestionMetrics.toDict, zeroTimeQ,
    Bind.bind, Except.bind, throw, throwThe, MonadExceptOf.throw]

/-- C3 (amended): for any question record with `T_total = 0`, in any
position-one input, `calculate_scores` raises `ZeroDivisionError` at the
unguarded Problem-Solving think-ratio division (line 33); the guarded
Resilience `stuck_ratio` would fall back to 1 for such a record, but that
guard is never reached. -/
theorem C3_zero_total_time_raises (q : QuestionMetrics) (rest : List QuestionDict)
    (cfgd : ConfigDict) (h : q.T_total = 0) :
    calculate_scores (q.toDict :: rest) cfgd = Except.error PyError.zeroDivisionError ∧
    stuck_ratio q = 1 := by
  constructor
  · apply calculate_scores_error_of_getQuestion
    simp [getQuestion, keyGet, QuestionMetrics.toDict, h,
      Bind.bind, Except.bind, throw, throwThe, MonadExceptOf.throw]
  · rw [stuck_ratio, if_neg]
    rw [h]
    exact lt_irrefl 0

/-- Witness for C3 (amended) at the concrete zero-time record. -/
theorem C3_witness :
    calculate_scores [zeroTimeQ.toDict] exampleConfig.toDict =
      Except.error PyError.zeroDivisionError ∧
    stuck_ratio zeroTimeQ = 1 :=
  C3_zero_total_time_raises zeroTimeQ [] exampleConfig.toDict rfl

/-! ### C6: missing fields -/

/-- The computation completed without raising. -/
def runSucceeds {ε α : Type} (e : Except ε α) : Prop :=
  ∃ r, e = Except.ok r

/-- The example weights as a dict with all four entries present. -/
def exampleWD : WeightsDict where
  ps := some 0.4
  code := some 0.3
  resilience := some 0.1
  autonomy := some 0.2

/-- The example configuration dict with the hint budget absent. -/
def noBudgetCfg : ConfigDict where
  weights := some exampleWD
  hint_budget := none

/-- The example question dict with the hint trace absent. -/
def noHintsQ : QuestionDict :=
  { exampleQ1.toDict with H_types := none }

/-- C6 counterexample: with `hint_budget` absent from the configuration and
`H_types` absent from the question, `calculate_scores` succeeds — the two
fields are silently recovered by `dict.get` defaults, contradicting the
claim that every missing field fails outright. -/
theorem C6_counterexample :
    noBudgetCfg.hint_budget = none ∧ noHintsQ.H_types = none ∧
    runSucceeds (calculate_scores [noHintsQ] noBudgetCfg) := by
  refine ⟨rfl, rfl, ?_⟩
  simp only [runSucceeds]
  norm_num [calculate_scores, getQuestions, getQuestion, keyGet, noHintsQ, noBudgetCfg,
    exampleWD, QuestionMetrics.toDict, exampleQ1, epsilon,
    Bind.bind, Except.bind, pure, Except.pure, throw, throwThe, MonadExceptOf.throw]
  try exact ⟨_, rfl⟩

/-- C6 (amended): a missing required field — any of the thirteen
per-question keys other than `H_types`, the `weights` mapping, or any of
its four entries — makes `calculate_scores` fail at the point of use with
a `KeyError`; but a missing `H_types` or `hint_budget` is silently
recovered with the defaults `[]` and `1.0`. -/
theorem C6_missing_field_behaviour :
    (calculate_scores [{ exampleQ1.toDict with T_think := none }] exampleConfig.toDict =
      Except.error (PyError.keyError FieldName.tThink)) ∧
    (calculate_scores [{ exampleQ1.toDict with T_total := none }] exampleConfig.toDict =
      Except.error (PyError.keyError FieldName.tTotal)) ∧
    (calculate_scores [{ exampleQ1.toDict with T_stuck := none }] exampleConfig.toDict =
      Except.error (PyError.keyError FieldName.tStuck)) ∧
    (calculate_scores [{ exampleQ1.toDict with E_covered := none }] exampleConfig.toDict =
      Except.error (PyError.keyError FieldName.eCovered)) ∧
    (calculate_scores [{ exampleQ1.toDict with E_total := none }] exampleConfig.toDict =
      Except.error (PyError.keyError FieldName.eTotal)) ∧
    (calculate_scores [{ exampleQ1.toDict with C_initial := none }] exampleConfig.toDict =
      Except.error (PyError.keyError FieldName.cInitial)) ∧
    (calculate_scores [{ exampleQ1.toDict with C_final := none }] exampleConfig.toDict =
      Except.error (PyError.keyError FieldName.cFinal)) ∧
    (calculate_scores [{ exampleQ1.toDict with C_target := none }] exampleConfig.toDict =
      Except.error (PyError.keyError FieldName.cTarget)) ∧
    (calculate_scores [{ exampleQ1.toDict with S_lint := none }] exampleConfig.toDict =
      Except.error (PyError.keyError FieldName.sLint)) ∧
    (calculate_scores [{ exampleQ1.toDict with K_useful := none }] exampleConfig.toDict =
      Except.error (PyError.keyError FieldName.kUseful)) ∧
    (calculate_scores [{ exampleQ1.toDict with K_total := none }] exampleConfig.toDict =
      Except.error (PyError.keyError FieldName.kTotal)) ∧
    (calculate_scores [{ exampleQ1.toDict with S_sentiment := none }] exampleConfig.toDict =
      Except.error (PyError.keyError FieldName.sSentiment)) ∧
    (calculate_scores [{ exampleQ1.toDict with Q_difficulty := none }] exampleConfig.toDict =
      Except.error (PyError.keyError FieldName.qDifficulty)) ∧
    (calculate_scores [exampleQ1.toDict] { weights := none, hint_budget := some 1 } =
      Except.error (PyError.keyError FieldName.weights)) ∧
    (calculate_scores [exampleQ1.toDict]
        { weights := some { exampleWD with ps := none }, hint_budget := some 1 } =
      Except.error (PyError.keyError FieldName.wps)) ∧
    (calculate_scores [exampleQ1.toDict]
        { weights := some { exampleWD with code := none }, hint_budget := some 1 } =
      Except.error (PyError.keyError FieldName.wcode)) ∧
    (calculate_scores [exampleQ1.toDict]
        { weights := some { exampleWD with resilience := none }, hint_budget := some 1 } =
      Except.error (PyError.keyError FieldName.wresilience)) ∧
    (calculate_scores [exampleQ1.toDict]
        { weights := some { exampleWD with autonomy := none }, hint_budget := some 1 } =
      Except.error (PyError.keyError FieldName.wautonomy)) ∧
    runSucceeds (calculate_scores [noHintsQ] noBudgetCfg) ∧
    runSucceeds (calculate_scores [exampleQ1.toDict] noBudgetCfg) := by
  refine ⟨?_, ?_, ?_, ?_, ?_, ?_, ?_, ?_, ?_, ?_, ?_, ?_, ?_, ?_, ?_, ?_, ?_, ?_, ?_, ?_⟩
  all_goals try
    (apply calculate_scores_error_of_getQuestion
     norm_num [getQuestion, keyGet, QuestionMetrics.toDict, exampleQ1, epsilon,
       Bind.bind, Except.bind, pure, Except.pure, throw, throwThe, MonadExceptOf.throw]
     done)
  all_goals try
    (norm_num [calculate_scores, getQuestions, getQuestion, keyGet, exampleWD,
       QuestionMetrics.toDict, exampleQ1, epsilon,
       Bind.bind, Except.bind, pure, Except.pure, throw, throwThe, MonadExceptOf.throw]
     done)
  all_goals
    (simp only [runSucceeds]
     norm_num [calculate_scores, getQuestions, getQuestion, keyGet, noHintsQ, noBudgetCfg,
       exampleWD, QuestionMetrics.toDict, exampleQ1, epsilon,
       Bind.bind, Except.bind, pure, Except.pure, throw, throwThe, MonadExceptOf.throw]
     try exact ⟨_, rfl⟩)

/-! ### C4: the single-question worked scenario -/

lemma avg_score_ps_singleton (q : QuestionMetrics) : avg_score_ps [q] = score_ps q := by
  simp [avg_score_ps]

lemma avg_score_code_singleton (q : QuestionMetrics) : avg_score_code [q] = score_code q := by
  simp [avg_score_code]

lemma avg_score_resilience_singleton (q : QuestionMetrics) :
    avg_score_resilience [q] = score_resilience q := by
  simp [avg_score_resilience]

lemma think_ratio_term_exampleQ1_bounds :
    (0.99 : ℝ) ≤ think_ratio_term exampleQ1 ∧ think_ratio_term exampleQ1 ≤ 100 / 101 := by
  have harg : -((exampleQ1.T_think / exampleQ1.T_total) - 0.3) ^ 2 = -(1 / 100) := by
    norm_num [exampleQ1]
  rw [think_ratio_term, harg]
  constructor
  · have h := Real.add_one_le_exp (-(1 / 100) : ℝ)
    linarith
  · rw [Real.exp_neg]
    have h1 : (1 : ℝ) + 1 / 100 ≤ Real.exp (1 / 100) := by
      have := Real.add_one_le_exp (1 / 100 : ℝ)
      linarith
    have h2 : (Real.exp (1 / 100))⁻¹ ≤ ((1 : ℝ) + 1 / 100)⁻¹ :=
      inv_anti₀ (by norm_num) h1
    calc (Real.exp (1 / 100))⁻¹ ≤ ((1 : ℝ) + 1 / 100)⁻¹ := h2
      _ = 100 / 101 := by norm_num

lemma score_ps_exampleQ1_bounds :
    (8.46 : ℝ) ≤ score_ps exampleQ1 ∧ score_ps exampleQ1 ≤ 8.4604 := by
  obtain ⟨hl, hu⟩ := think_ratio_term_exampleQ1_bounds
  have hm : min 1 (think_ratio_term exampleQ1) = think_ratio_term exampleQ1 :=
    min_eq_right (by linarith)
  have hE : exampleQ1.E_covered / exampleQ1.E_total = 3 / 4 := by
    norm_num [exampleQ1]
  rw [score_ps, hm, hE]
  constructor <;> linarith

lemma score_code_exampleQ1 :
    score_code exampleQ1 = 10 * (0.5 * (1000000 / 1000001) + 0.3 * 0.85 + 0.2 * (8 / 11)) := by
  have himp : improvement_factor exampleQ1 = 1000000 / 1000001 := by
    rw [improvement_factor]
    have hx : (exampleQ1.C_initial - exampleQ1.C_final) /
        (exampleQ1.C_initial - exampleQ1.C_target + epsilon) = 1000000 / 1000001 := by
      norm_num [exampleQ1, epsilon]
    rw [hx]
    norm_num
  have hk : keystroke_efficiency exampleQ1 = 8 / 11 := by
    rw [keystroke_efficiency]
    norm_num [exampleQ1]
  rw [score_code, himp, hk]
  norm_num [exampleQ1]

lemma score_resilience_exampleQ1 : score_resilience exampleQ1 = 7.4 := by
  rw [score_resilience, stuck_ratio]
  norm_num [exampleQ1]

/-- C4 counterexample: at the spec's single-question scenario input the
computed Problem-Solving, Coding Proficiency and Resilience scores are
far from the claimed 7.75 / 8.35 / 6.20 (they are about 8.46 / 9.00 /
7.40), so the claimed triple is impossible even up to rounding. -/
theorem C4_counterexample :
    ¬(|avg_score_ps [exampleQ1] - 7.75| ≤ 0.005 ∧
      |avg_score_code [exampleQ1] - 8.35| ≤ 0.005 ∧
      |avg_score_resilience [exampleQ1] - 6.2| ≤ 0.005) := by
  rintro ⟨hps, -, -⟩
  rw [avg_score_ps_singleton, abs_le] at hps
  have := score_ps_exampleQ1_bounds.1
  linarith [hps.2]

/-- C4 (amended): at the single-question scenario input the computation
yields Problem-Solving within 0.005 of 8.46, Coding Proficiency within
0.005 of 9.00, Resilience exactly 7.40, Autonomy exactly 5.00 (with total
hint weight 1 and autonomy budget 2), and difficulty factor `2/3`. -/
theorem C4_example_scenario :
    |avg_score_ps [exampleQ1] - 8.46| ≤ 0.005 ∧
    |avg_score_code [exampleQ1] - 9| ≤ 0.005 ∧
    avg_score_resilience [exampleQ1] = 7.4 ∧
    total_hints_score [exampleQ1] = 1 ∧
    autonomy_denominator [exampleQ1] exampleConfig = 2 ∧
    score_autonomy [exampleQ1] exampleConfig = 5 ∧
    difficulty_factor [exampleQ1] = 2 / 3 := by
  have hhints : total_hints_score [exampleQ1] = 1 := by
    norm_num [total_hints_score, exampleQ1]
  have hdenom : autonomy_denominator [exampleQ1] exampleConfig = 2 := by
    norm_num [autonomy_denominator, total_difficulty, exampleQ1, exampleConfig]
  refine ⟨?_, ?_, ?_, hhints, hdenom, ?_, ?_⟩
  · rw [avg_score_ps_singleton, abs_le]
    have h := score_ps_exampleQ1_bounds
    constructor <;> linarith [h.1, h.2]
  · rw [avg_score_code_singleton, abs_le, score_code_exampleQ1]
    constructor <;> norm_num
  · rw [avg_score_resilience_singleton, score_resilience_exampleQ1]
  · rw [score_autonomy, autonomy_term, if_pos (by rw [hdenom]; norm_num), hdenom, hhints]
    norm_num
  · norm_num [difficulty_factor, total_difficulty, exampleQ1]

end
